import Mathlib

/-!
Shallow embedding of `src/python/fedml/core/mlops/mlops_device_perfs.py`
(class `MLOpsDevicePerfStats`), the device telemetry agent of this
repository.  Machine reals (Python floats) are modelled by `ℚ`; byte and
id counters by `ℤ`; fallible Python code by `Except String`.
-/

namespace MLOpsDevicePerfs

/-- Raw snapshot returned by one `sys_utils.get_sys_realtime_stats()` call
(source line 160-161).  Field names follow the tuple names at the call
site; `cup_utilization` is the source's own spelling. -/
structure TelemetrySample where
  total_mem : ℚ
  free_mem : ℚ
  total_disk_size : ℚ
  free_disk_size : ℚ
  cup_utilization : ℚ
  cpu_cores : ℤ
  gpu_cores_total : ℤ
  gpu_cores_available : ℤ
  sent_bytes : ℤ
  recv_bytes : ℤ
  gpu_available_ids : List ℤ
  deriving DecidableEq

/-- Wire-format payload `artifact_info_json` built at source lines 164-177. -/
structure TelemetryRecord where
  edgeId : ℤ
  memoryTotal : ℚ
  memoryAvailable : ℚ
  diskSpaceTotal : ℚ
  diskSpaceAvailable : ℚ
  cpuUtilization : ℚ
  cpuCores : ℤ
  gpuCoresTotal : ℤ
  gpuCoresAvailable : ℤ
  gpu_available_ids : List ℤ
  networkTraffic : ℤ
  updateTime : ℤ
  deriving DecidableEq

/-- Python's builtin `round` to an integer, idealized over `ℚ`: round to
nearest, ties to the even integer.  Python rounds the underlying binary
double correctly with ties-to-even, so on inputs exactly representable in
binary floating point this rational model agrees with the source. -/
def roundHalfToEven (x : ℚ) : ℤ :=
  if x - x.floor < 1/2 then x.floor
  else if 1/2 < x - x.floor then x.floor + 1
  else if x.floor % 2 = 0 then x.floor else x.floor + 1

/-- Python's `round(x, 2)` (two decimal places), as used at source lines
166-170. -/
def pyRound2 (x : ℚ) : ℚ :=
  (roundHalfToEven (x * 100) : ℚ) / 100

/-- Modelled from the spec: `MLOpsUtils.BYTES_TO_GB` (defined in
`mlops_utils.py`, which is not under `src/`); the spec fixes the
byte-to-gigabyte conversion as division by `2^30`. -/
def BYTES_TO_GB : ℚ := 1 / 2 ^ 30

/-- Fixed topic string of source line 163. -/
def topic_name : String := "ml_client/mlops/gpu_device_info"

/-- Python's `int(...)` truncation toward zero, applied to the NTP time
at source line 176. -/
def pyTrunc (x : ℚ) : ℤ :=
  if 0 ≤ x then x.floor else -(-x).floor

/-- The `artifact_info_json` record of source lines 164-177, built from
one provider sample, the edge id, and the network-corrected time. -/
def report_gpu_device_info_record (edge_id : ℤ) (s : TelemetrySample) (ntp : ℚ) :
    TelemetryRecord :=
  { edgeId := edge_id
    memoryTotal := pyRound2 (s.total_mem * BYTES_TO_GB)
    memoryAvailable := pyRound2 (s.free_mem * BYTES_TO_GB)
    diskSpaceTotal := pyRound2 (s.total_disk_size * BYTES_TO_GB)
    diskSpaceAvailable := pyRound2 (s.free_disk_size * BYTES_TO_GB)
    cpuUtilization := pyRound2 s.cup_utilization
    cpuCores := s.cpu_cores
    gpuCoresTotal := s.gpu_cores_total
    gpuCoresAvailable := s.gpu_cores_available
    gpu_available_ids := s.gpu_available_ids
    networkTraffic := s.sent_bytes + s.recv_bytes
    updateTime := pyTrunc ntp }

/-- Static method `report_gpu_device_info` (source lines 146-180).  The
provider call `get_sys_realtime_stats()` may raise, so its outcome is an
`Except` input; the result collects the built record together with the
list of `(topic, payload)` publishes performed (empty when `mqtt_mgr` is
`None`, because of the guard at line 179). -/
def report_gpu_device_info (edge_id : ℤ) (mqtt_mgr : Option Unit)
    (stats : Except String TelemetrySample) (ntp : ℚ) :
    Except String (TelemetryRecord × List (String × TelemetryRecord)) := do
  let s ← stats
  let r := report_gpu_device_info_record edge_id s ntp
  match mqtt_mgr with
  | some _ => pure (r, [(topic_name, r)])
  | none => pure (r, [])

/-- Caller-supplied configuration (`sys_args`).  Each field models one
attribute that the source reads; `none` models the attribute being
absent from the object. -/
structure SysArgs where
  edge_id : Option ℤ
  client_id : Option ℤ
  device_id : Option ℤ
  run_id : Option ℤ
  deriving DecidableEq

/-- Identity fallback at source lines 86-89: explicit `edge_id`, else
`client_id`, else `0`. -/
def resolve_edge_id (a : SysArgs) : ℤ :=
  ((a.edge_id).orElse fun _ => a.client_id).getD 0

/-- Spawn-time `getattr(sys_args, "device_id", 0)` of source line 90. -/
def resolve_device_id (a : SysArgs) : ℤ :=
  (a.device_id).getD 0

/-- Python attribute access `obj.name` with no default: raises
`AttributeError` when the attribute is absent. -/
def attrAccess (v : Option ℤ) (attr : String) : Except String ℤ :=
  match v with
  | some x => Except.ok x
  | none => Except.error ("AttributeError: " ++ attr)

/-- Observable state of one `MLOpsDevicePerfStats` supervisor instance:
whether `device_realtime_stats_event` exists (is not `None`), whether it
is set, every worker process spawned so far (a spawned worker keeps
running until it observes the event), and the single tracked
`device_realtime_stats_process` handle. -/
structure SupervisorState where
  eventExists : Bool
  eventSet : Bool
  spawnedWorkers : List ℕ
  trackedHandle : Option ℕ
  deriving DecidableEq

/-- Freshly constructed instance (source lines 25-31): no event, no
process. -/
def initState : SupervisorState :=
  { eventExists := false, eventSet := false, spawnedWorkers := [], trackedHandle := none }

/-- Method `setup_realtime_stats_process` (source lines 72-100): create
the event if absent, unconditionally `clear()` it, spawn a new worker
process and overwrite the tracked handle.  There is no check for an
already-running worker. -/
def setup_realtime_stats_process (st : SupervisorState) (newWorker : ℕ) : SupervisorState :=
  { eventExists := true
    eventSet := false
    spawnedWorkers := st.spawnedWorkers ++ [newWorker]
    trackedHandle := some newWorker }

/-- Method `report_device_realtime_stats` (source lines 33-46): delegates
to `setup_realtime_stats_process`. -/
def report_device_realtime_stats (st : SupervisorState) (newWorker : ℕ) : SupervisorState :=
  setup_realtime_stats_process st newWorker

/-- Method `stop_device_realtime_stats` (source lines 48-58): set the
event only if it exists (`is not None` guard), otherwise do nothing. -/
def stop_device_realtime_stats (st : SupervisorState) : SupervisorState :=
  if st.eventExists then { st with eventSet := true } else st

/-- Method `should_stop_device_realtime_stats` (source lines 60-70). -/
def should_stop_device_realtime_stats (st : SupervisorState) : Bool :=
  st.eventExists && st.eventSet

/-- Environment of stats-provider calls available to the worker:
`untargeted i` is the outcome of the `i`-th no-argument
`sys_utils.get_sys_realtime_stats()` call (source line 161); `targeted p i`
is what a provider bound to process `p` (the `SysStats(process_id=p)`
object of source line 128) would return, modelled from the spec's
provider interface since `system_stats.py` is not under `src/`. -/
structure StatsEnv where
  untargeted : ℕ → Except String TelemetrySample
  targeted : ℤ → ℕ → Except String TelemetrySample

/-- Observable actions of one worker process, in order. -/
inductive WorkerEvent where
  | published (topic : String) (record : TelemetryRecord)
  | iterationError (msg : String)
  | slept
  | loopStopped
  | disconnected
  deriving DecidableEq

/-- One iteration of the `while` body (source lines 131-140): call
`report_gpu_device_info` with the live publisher inside `try`, record the
exception if it raises, then sleep. -/
def loopIteration (edge_id : ℤ) (env : StatsEnv) (ntp : ℕ → ℚ) (i : ℕ) : List WorkerEvent :=
  match report_gpu_device_info edge_id (some ()) (env.untargeted i) (ntp i) with
  | Except.ok r => (r.2.map fun m => WorkerEvent.published m.1 m.2) ++ [WorkerEvent.slept]
  | Except.error e => [WorkerEvent.iterationError e, WorkerEvent.slept]

/-- The `while not should_stop` loop of source lines 131-144, with fuel
for termination.  `signal i` is the value of `event.is_set()` at the
`i`-th loop-condition check; on observing a set signal the worker emits
`loopStopped` (`mqtt_mgr.loop_stop()`) then `disconnected`
(`mqtt_mgr.disconnect()`) and exits. -/
def workerLoop (edge_id : ℤ) (env : StatsEnv) (signal : ℕ → Bool) (ntp : ℕ → ℚ) :
    ℕ → ℕ → List WorkerEvent
  | 0, _ => []
  | fuel + 1, i =>
    if signal i then [WorkerEvent.loopStopped, WorkerEvent.disconnected]
    else loopIteration edge_id env ntp i ++ workerLoop edge_id env signal ntp fuel (i + 1)

/-- Trace of `n` consecutive loop iterations starting at iteration `i`. -/
def iterationsTrace (edge_id : ℤ) (env : StatsEnv) (ntp : ℕ → ℚ) : ℕ → ℕ → List WorkerEvent
  | _, 0 => []
  | i, n + 1 => loopIteration edge_id env ntp i ++ iterationsTrace edge_id env ntp (i + 1) n

/-- What a completed worker entry produced: the publisher client id built
at source lines 121-122, the process id bound into the `SysStats` object
at source line 128, and the event trace of the loop. -/
structure EntryResult where
  clientId : String
  sysStatsObjTarget : ℤ
  trace : List WorkerEvent
  deriving DecidableEq

/-- Worker entry `report_device_realtime_stats_entry` (source lines
102-144).  Before any connection, the publisher client identifier is
built from `self.args.device_id` — a direct attribute read (line 122),
unlike the defaulted spawn-time read — so a missing `device_id` raises
`AttributeError` here.  Then the `SysStats` object is bound to the
parent pid (lines 127-128) and the loop runs; the loop samples only
through the untargeted provider call. -/
def report_device_realtime_stats_entry (args : SysArgs) (edge_id parentPid : ℤ)
    (uuidStr : String) (env : StatsEnv) (signal : ℕ → Bool) (ntp : ℕ → ℚ)
    (fuel : ℕ) : Except String EntryResult := do
  let deviceId ← attrAccess args.device_id "device_id"
  let clientId :=
    "FedML_Metrics_DevicePerf_" ++ toString deviceId ++ "_" ++ toString edge_id
      ++ "_" ++ uuidStr
  pure { clientId := clientId
         sysStatsObjTarget := parentPid
         trace := workerLoop edge_id env signal ntp fuel 0 }

/-- Rounding to an integer following the spec's words: "round half away
from zero"; to be compared against the source's `roundHalfToEven`. -/
def specRoundHalfAwayFromZero (x : ℚ) : ℤ :=
  if 0 ≤ x then (x + 1/2).floor else -((-x) + 1/2).floor

/-- Spec-worded two-decimal rounding, for the refinement comparison. -/
def specRound2 (x : ℚ) : ℚ :=
  (specRoundHalfAwayFromZero (x * 100) : ℚ) / 100

/-- Recognizer for the sleep event, used to count loop iterations. -/
def isSlept : WorkerEvent → Bool
  | WorkerEvent.slept => true
  | _ => false

/-- Sample of the spec's concrete scenario (§8). -/
def sampleC5 : TelemetrySample :=
  { total_mem := 17179869184
    free_mem := 8589934592
    total_disk_size := 107374182400
    free_disk_size := 53687091200
    cup_utilization := 42.567
    cpu_cores := 8
    gpu_cores_total := 2
    gpu_cores_available := 1
    sent_bytes := 1000
    recv_bytes := 2000
    gpu_available_ids := [0] }

/-- Sample whose memory size is exactly an eighth of a gigabyte, putting
the scaled value `0.125 * 100 = 12.5` on a rounding tie. -/
def sampleTie : TelemetrySample :=
  { total_mem := 134217728
    free_mem := 0
    total_disk_size := 0
    free_disk_size := 0
    cup_utilization := 0
    cpu_cores := 0
    gpu_cores_total := 0
    gpu_cores_available := 0
    sent_bytes := 0
    recv_bytes := 0
    gpu_available_ids := [] }

/-- Generic nonzero sample used by concrete worker-loop runs. -/
def sampleA : TelemetrySample :=
  { total_mem := 1, free_mem := 2, total_disk_size := 3, free_disk_size := 4
    cup_utilization := 5, cpu_cores := 6, gpu_cores_total := 7, gpu_cores_available := 8
    sent_bytes := 9, recv_bytes := 10, gpu_available_ids := [0] }

/-- A visibly different sample, standing for what a provider bound to the
parent process would have returned. -/
def sampleParent : TelemetrySample :=
  { total_mem := 1, free_mem := 2, total_disk_size := 3, free_disk_size := 4
    cup_utilization := 5, cpu_cores := 6, gpu_cores_total := 7, gpu_cores_available := 8
    sent_bytes := 900, recv_bytes := 1000, gpu_available_ids := [0] }

/-- Environment in which the untargeted provider call and the provider
bound to any process id return visibly different samples. -/
def envC2 : StatsEnv :=
  { untargeted := fun _ => Except.ok sampleA
    targeted := fun _ _ => Except.ok sampleParent }

/-- Environment whose untargeted call always succeeds with `sampleA`. -/
def envW : StatsEnv :=
  { untargeted := fun _ => Except.ok sampleA
    targeted := fun _ _ => Except.ok sampleA }

/-- Environment whose untargeted call fails on the first iteration and
succeeds afterwards. -/
def envE : StatsEnv :=
  { untargeted := fun i => if i = 0 then Except.error "boom" else Except.ok sampleA
    targeted := fun _ _ => Except.error "boom" }

/-- Cancellation observed from the second loop check onwards. -/
def sigW : ℕ → Bool := fun j => decide (1 ≤ j)

/-- Configuration with every attribute present. -/
def argsFull : SysArgs :=
  { edge_id := some 7, client_id := some 3, device_id := some 5, run_id := some 11 }

/-- Bridge from the executable `Rat.floor` used in the definitions to the
`Int.floor` used by `norm_num`. -/
theorem ratFloor_eq (x : ℚ) : x.floor = ⌊x⌋ :=
  (Rat.floor_def' x).trans Rat.floor_def.symm

/-- Each loop-body iteration emits exactly one sleep event. -/
theorem loopIteration_sleeps (edge_id : ℤ) (env : StatsEnv) (ntp : ℕ → ℚ) (i : ℕ) :
    (loopIteration edge_id env ntp i).countP isSlept = 1 := by
  unfold loopIteration
  cases h : env.untargeted i <;>
    simp [report_gpu_device_info, h, Except.bind, isSlept, List.countP, List.countP.go]

/-- Consecutive-iterations traces concatenate. -/
theorem iterationsTrace_add (edge_id : ℤ) (env : StatsEnv) (ntp : ℕ → ℚ) (m : ℕ) :
    ∀ (n i : ℕ), iterationsTrace edge_id env ntp i (n + m) =
      iterationsTrace edge_id env ntp i n ++ iterationsTrace edge_id env ntp (i + n) m := by
  intro n
  induction n with
  | zero => intro i; simp [iterationsTrace]
  | succ n ih =>
    intro i
    have e : n + 1 + m = (n + m) + 1 := by omega
    rw [e, iterationsTrace, iterationsTrace, ih (i + 1), List.append_assoc]
    have e2 : i + (n + 1) = i + 1 + n := by omega
    rw [e2]

/-- The trace of `n` iterations contains exactly `n` sleep events. -/
theorem iterationsTrace_sleeps (edge_id : ℤ) (env : StatsEnv) (ntp : ℕ → ℚ) :
    ∀ (n i : ℕ), (iterationsTrace edge_id env ntp i n).countP isSlept = n := by
  intro n
  induction n with
  | zero => intro i; simp [iterationsTrace]
  | succ n ih =>
    intro i
    rw [iterationsTrace, List.countP_append, loopIteration_sleeps, ih (i + 1)]
    omega

/-- While the signal stays unset, the loop runs its iterations in order:
the trace of the first `n` iterations is a prefix of the worker trace. -/
theorem workerLoop_firstIterations (edge_id : ℤ) (env : StatsEnv) (signal : ℕ → Bool) (ntp : ℕ → ℚ)
    (n : ℕ) :
    ∀ (fuel i : ℕ), n ≤ fuel → (∀ j, i ≤ j → j < i + n → signal j = false) →
    workerLoop edge_id env signal ntp fuel i =
      iterationsTrace edge_id env ntp i n ++
        workerLoop edge_id env signal ntp (fuel - n) (i + n) := by
  induction n with
  | zero => intro fuel i _ _; simp [iterationsTrace]
  | succ n ih =>
    intro fuel i hn hsig
    obtain ⟨f, rfl⟩ : ∃ f, fuel = f + 1 := ⟨fuel - 1, by omega⟩
    have hi : signal i = false := hsig i le_rfl (by omega)
    have e1 : f + 1 - (n + 1) = f - n := by omega
    have e2 : i + (n + 1) = i + 1 + n := by omega
    rw [workerLoop, hi, e1, e2, iterationsTrace, List.append_assoc,
      ih f (i + 1) (by omega) fun j h1 h2 => hsig j (by omega) (by omega)]
    simp

/-- The worker trace does not depend on the targeted provider that the
unused `SysStats` object wraps. -/
theorem workerLoop_untargeted (edge_id : ℤ) (unt : ℕ → Except String TelemetrySample)
    (t1 t2 : ℤ → ℕ → Except String TelemetrySample) (signal : ℕ → Bool) (ntp : ℕ → ℚ) :
    ∀ (fuel i : ℕ),
      workerLoop edge_id ⟨unt, t1⟩ signal ntp fuel i =
        workerLoop edge_id ⟨unt, t2⟩ signal ntp fuel i := by
  intro fuel
  induction fuel with
  | zero => intro i; rfl
  | succ fuel ih =>
    intro i
    rw [workerLoop, workerLoop, ih (i + 1)]
    rfl

/-- C3: when the signal is first observed set at the `k`-th loop check
(it was set during the `k-1`-st iteration, i.e. while the worker was
Running), the whole worker trace is exactly the `k` completed iterations
followed by `loop_stop` then `disconnect`: nothing is published after the
in-flight iteration, at most the `k` iteration sleeps elapse (one bound
of the sleep interval after the signal is set), and the publisher session
is flushed and closed on the way to exit. -/
theorem C3_cancellation_drains_and_stops (edge_id : ℤ) (env : StatsEnv)
    (signal : ℕ → Bool) (ntp : ℕ → ℚ) (k fuel : ℕ)
    (hbefore : ∀ j, j < k → signal j = false) (hat : signal k = true) (hfuel : k < fuel) :
    workerLoop edge_id env signal ntp fuel 0 =
      iterationsTrace edge_id env ntp 0 k ++
        [WorkerEvent.loopStopped, WorkerEvent.disconnected] ∧
    (iterationsTrace edge_id env ntp 0 k).countP isSlept = k := by
  refine ⟨?_, iterationsTrace_sleeps edge_id env ntp k 0⟩
  rw [workerLoop_firstIterations edge_id env signal ntp k fuel 0 (by omega)
    fun j h1 h2 => hbefore j (by omega)]
  obtain ⟨m, hm⟩ : ∃ m, fuel - k = m + 1 := ⟨fuel - k - 1, by omega⟩
  rw [hm, Nat.zero_add, workerLoop, hat]
  simp

/-- C3 witness: signal set during the first iteration and observed at the
second check, with two units of fuel. -/
theorem C3_witness :
    workerLoop 7 envW sigW (fun _ => 0) 2 0 =
      iterationsTrace 7 envW (fun _ => 0) 0 1 ++
        [WorkerEvent.loopStopped, WorkerEvent.disconnected] ∧
    (iterationsTrace 7 envW (fun _ => 0) 0 1).countP isSlept = 1 :=
  C3_cancellation_drains_and_stops 7 envW sigW (fun _ => 0) 1 2
    (fun j hj => by
      have : j = 0 := by omega
      subst this
      rfl)
    rfl (by omega)

/-- C6: a provider error on iteration `k` is recorded as a caught
iteration error and the loop continues: iteration `k + 1` still publishes
its record; the worker trace stays a plain event list (the catch-all at
source lines 135-138 turns iteration errors into events, so none
propagates while the signal is unset). -/
theorem C6_iteration_errors_isolated (edge_id : ℤ) (env : StatsEnv) (signal : ℕ → Bool)
    (ntp : ℕ → ℚ) (k fuel : ℕ) (e : String) (s : TelemetrySample)
    (hsig : ∀ j, j ≤ k + 1 → signal j = false)
    (herr : env.untargeted k = Except.error e)
    (hok : env.untargeted (k + 1) = Except.ok s)
    (hfuel : k + 2 ≤ fuel) :
    workerLoop edge_id env signal ntp fuel 0 =
      iterationsTrace edge_id env ntp 0 k ++
        ([WorkerEvent.iterationError e, WorkerEvent.slept] ++
          ([WorkerEvent.published topic_name
              (report_gpu_device_info_record edge_id s (ntp (k + 1))),
            WorkerEvent.slept] ++
            workerLoop edge_id env signal ntp (fuel - (k + 2)) (k + 2))) := by
  rw [workerLoop_firstIterations edge_id env signal ntp (k + 2) fuel 0 hfuel
    fun j h1 h2 => hsig j (by omega)]
  rw [Nat.zero_add, iterationsTrace_add edge_id env ntp 2 k 0, Nat.zero_add,
    List.append_assoc]
  congr 1
  rw [iterationsTrace, iterationsTrace, iterationsTrace, List.append_nil]
  have h1 : loopIteration edge_id env ntp k = [WorkerEvent.iterationError e, WorkerEvent.slept] := by
    unfold loopIteration
    simp [report_gpu_device_info, herr, Except.bind]
  have h2 : loopIteration edge_id env ntp (k + 1) =
      [WorkerEvent.published topic_name
        (report_gpu_device_info_record edge_id s (ntp (k + 1))), WorkerEvent.slept] := by
    unfold loopIteration
    simp [report_gpu_device_info, hok, Except.bind]
  rw [h1, h2]
  simp

/-- C6 witness: provider error on iteration 0, success on iteration 1,
signal unset throughout, three units of fuel. -/
theorem C6_witness :
    workerLoop 7 envE (fun _ => false) (fun _ => 0) 3 0 =
      iterationsTrace 7 envE (fun _ => 0) 0 0 ++
        ([WorkerEvent.iterationError "boom", WorkerEvent.slept] ++
          ([WorkerEvent.published topic_name
              (report_gpu_device_info_record 7 sampleA 0),
            WorkerEvent.slept] ++
            workerLoop 7 envE (fun _ => false) (fun _ => 0) (3 - (0 + 2)) (0 + 2))) :=
  C6_iteration_errors_isolated 7 envE (fun _ => false) (fun _ => 0) 0 3 "boom" sampleA
    (fun j _ => rfl) rfl rfl (by omega)

/-- C2 (amended): the worker entry records the parent pid into the
`SysStats` object but never queries it; every iteration samples through
the untargeted `get_sys_realtime_stats()` call, so the worker trace is
unchanged under any change of the parent pid and of the targeted
provider. -/
theorem C2_trace_independent_of_parent (args : SysArgs) (edge_id p1 p2 : ℤ)
    (uuidStr : String) (unt : ℕ → Except String TelemetrySample)
    (t1 t2 : ℤ → ℕ → Except String TelemetrySample)
    (signal : ℕ → Bool) (ntp : ℕ → ℚ) (fuel : ℕ) :
    (report_device_realtime_stats_entry args edge_id p1 uuidStr ⟨unt, t1⟩ signal ntp
        fuel).map EntryResult.trace =
      (report_device_realtime_stats_entry args edge_id p2 uuidStr ⟨unt, t2⟩ signal ntp
        fuel).map EntryResult.trace := by
  unfold report_device_realtime_stats_entry
  cases h : args.device_id with
  | none => simp [attrAccess]
  | some d =>
    simp only [attrAccess, Except.map, Except.bind, bind, Except.pure, pure]
    rw [workerLoop_untargeted edge_id unt t1 t2 signal ntp fuel 0]

/-- C2 counterexample: in an environment where the untargeted provider
call and a provider bound to the parent process return visibly different
samples, the worker (spawned with parent pid 42, which is duly bound into
the `SysStats` object) publishes the record built from the untargeted
sample, not the record a parent-targeted query would have produced. -/
theorem C2_counterexample :
    (report_device_realtime_stats_entry argsFull 7 42 "u" envC2 sigW (fun _ => 0) 2).map
        EntryResult.sysStatsObjTarget = Except.ok 42 ∧
    (report_device_realtime_stats_entry argsFull 7 42 "u" envC2 sigW (fun _ => 0) 2).map
        EntryResult.trace =
      Except.ok
        [WorkerEvent.published topic_name (report_gpu_device_info_record 7 sampleA 0),
          WorkerEvent.slept, WorkerEvent.loopStopped, WorkerEvent.disconnected] ∧
    report_gpu_device_info_record 7 sampleA 0 ≠
      report_gpu_device_info_record 7 sampleParent 0 := by
  refine ⟨rfl, ?_, ?_⟩
  · unfold report_device_realtime_stats_entry
    simp only [argsFull, attrAccess, Except.map, Except.bind, bind, Except.pure, pure]
    rw [workerLoop, workerLoop]
    norm_num [sigW, envC2, loopIteration, report_gpu_device_info, Except.bind, topic_name]
  · intro h
    have hnet := congrArg TelemetryRecord.networkTraffic h
    simp [report_gpu_device_info_record, sampleA, sampleParent] at hnet

/-- C1 counterexample: with worker 1 already spawned (and still running —
`stop` only sets the event, it does not wait), a second start call is not
a no-op: it spawns worker 2 alongside worker 1, and it re-clears the
event that `stop` had just set. -/
theorem C1_counterexample :
    setup_realtime_stats_process (setup_realtime_stats_process initState 1) 2 ≠
      setup_realtime_stats_process initState 1 ∧
    (setup_realtime_stats_process (setup_realtime_stats_process initState 1) 2).spawnedWorkers
      = [1, 2] ∧
    (stop_device_realtime_stats (setup_realtime_stats_process initState 1)).eventSet = true ∧
    (setup_realtime_stats_process
        (stop_device_realtime_stats (setup_realtime_stats_process initState 1)) 2).eventSet
      = false := by
  decide

/-- C1 (amended): every start call on an `MLOpsDevicePerfStats` instance
unconditionally makes the shared event exist, clears it, appends a freshly
spawned worker process to the set of running workers, and overwrites the
tracked handle; start while a worker is already running is therefore not
a no-op and does re-clear the shared CancellationSignal. -/
theorem C1_start_always_spawns_and_clears (st : SupervisorState) (w : ℕ) :
    (setup_realtime_stats_process st w).eventExists = true ∧
    (setup_realtime_stats_process st w).eventSet = false ∧
    (setup_realtime_stats_process st w).spawnedWorkers = st.spawnedWorkers ++ [w] ∧
    (setup_realtime_stats_process st w).trackedHandle = some w ∧
    report_device_realtime_stats st w = setup_realtime_stats_process st w := by
  refine ⟨rfl, rfl, rfl, rfl, rfl⟩

/-- C7: `stop_device_realtime_stats` before any start (no event yet) is a
no-op that leaves the state unchanged and raises nothing (the
`is not None` guard is the whole body); a second stop is identical to the
first, and a stop on an existing event leaves it set. -/
theorem C7_stop_idempotent (st : SupervisorState) :
    (st.eventExists = false → stop_device_realtime_stats st = st) ∧
    stop_device_realtime_stats (stop_device_realtime_stats st) = stop_device_realtime_stats st ∧
    (st.eventExists = true → (stop_device_realtime_stats st).eventSet = true) := by
  refine ⟨fun h => ?_, ?_, fun h => ?_⟩
  · simp [stop_device_realtime_stats, h]
  · by_cases h : st.eventExists <;> simp [stop_device_realtime_stats, h]
  · simp [stop_device_realtime_stats, h]

/-- C7 witness: stop before start on a fresh instance, and double stop
after a start, at concrete states. -/
theorem C7_witness :
    stop_device_realtime_stats initState = initState ∧
    stop_device_realtime_stats
        (stop_device_realtime_stats (setup_realtime_stats_process initState 1)) =
      stop_device_realtime_stats (setup_realtime_stats_process initState 1) ∧
    (stop_device_realtime_stats (setup_realtime_stats_process initState 1)).eventSet = true :=
  ⟨(C7_stop_idempotent initState).1 rfl,
    (C7_stop_idempotent (setup_realtime_stats_process initState 1)).2.1,
    (C7_stop_idempotent (setup_realtime_stats_process initState 1)).2.2 rfl⟩

/-- C8: the `networkTraffic` field of every built record is exactly the
integer sum `sent_bytes + recv_bytes` of the input sample, with no
rounding and no unit conversion. -/
theorem C8_networkTraffic_exact_sum (edge_id : ℤ) (s : TelemetrySample) (ntp : ℚ) :
    (report_gpu_device_info_record edge_id s ntp).networkTraffic =
      s.sent_bytes + s.recv_bytes :=
  rfl

/-- C9: when the configuration object has no `device_id` attribute, the
worker entry fails with `AttributeError` while building the publisher
client identifier and produces no trace (never reaches the loop), even
though the spawn-time resolution of the same attribute defaults to `0`. -/
theorem C9_missing_device_id_fatal (args : SysArgs) (edge_id parentPid : ℤ)
    (uuidStr : String) (env : StatsEnv) (signal : ℕ → Bool) (ntp : ℕ → ℚ) (fuel : ℕ)
    (hmissing : args.device_id = none) :
    report_device_realtime_stats_entry args edge_id parentPid uuidStr env signal ntp fuel =
      Except.error ("AttributeError: " ++ "device_id") ∧
    resolve_device_id args = 0 := by
  constructor
  · simp [report_device_realtime_stats_entry, attrAccess, hmissing]
  · simp [resolve_device_id, hmissing]

/-- C9 witness: concrete configuration with every attribute absent. -/
theorem C9_witness :
    report_device_realtime_stats_entry ⟨none, none, none, none⟩ 7 42 "u"
        ⟨fun _ => Except.error "e", fun _ _ => Except.error "e"⟩ (fun _ => false)
        (fun _ => 0) 3 =
      Except.error ("AttributeError: " ++ "device_id") ∧
    resolve_device_id ⟨none, none, none, none⟩ = 0 :=
  C9_missing_device_id_fatal ⟨none, none, none, none⟩ 7 42 "u"
    ⟨fun _ => Except.error "e", fun _ _ => Except.error "e"⟩ (fun _ => false)
    (fun _ => 0) 3 rfl

/-- C4 counterexample: for a memory size of `134217728` bytes the scaled
value is exactly `12.5` hundredths-tie (`0.125` GB, exactly representable
in binary floating point, so the rational model agrees with the float
behaviour); the builder rounds it to `0.12`, while round-half-away-from-
zero would give `0.13`. -/
theorem C4_counterexample :
    (report_gpu_device_info_record 0 sampleTie 0).memoryTotal = 0.12 ∧
    specRound2 ((134217728 : ℚ) * BYTES_TO_GB) = 0.13 ∧
    (report_gpu_device_info_record 0 sampleTie 0).memoryTotal ≠
      specRound2 ((134217728 : ℚ) * BYTES_TO_GB) := by
  refine ⟨?_, ?_, ?_⟩ <;>
    norm_num [report_gpu_device_info_record, pyRound2, roundHalfToEven, ratFloor_eq,
      specRound2, specRoundHalfAwayFromZero, BYTES_TO_GB, sampleTie]

/-- C4 (amended): at an exact `.xx5` tie of the scaled byte-derived
value, the builder's rounding resolves the tie to the even hundredth
(Python's builtin `round`, ties-to-even), not away from zero. -/
theorem C4_tie_rounds_half_to_even (edge_id : ℤ) (s : TelemetrySample) (ntp : ℚ) (m : ℤ)
    (htie : s.total_mem * BYTES_TO_GB * 100 = (m : ℚ) + 1/2) :
    (report_gpu_device_info_record edge_id s ntp).memoryTotal =
      (if m % 2 = 0 then (m : ℚ) else (m : ℚ) + 1) / 100 := by
  have h1 : ((m : ℚ) + 1/2).floor = m := by
    rw [ratFloor_eq, Int.floor_int_add]
    norm_num
  show pyRound2 (s.total_mem * BYTES_TO_GB) = _
  rw [pyRound2, roundHalfToEven, htie, h1]
  have hfrac : (m : ℚ) + 1/2 - (m : ℚ) = 1/2 := by ring
  push_cast
  rw [hfrac]
  rw [if_neg (lt_irrefl (1/2 : ℚ)), if_neg (lt_irrefl (1/2 : ℚ))]

/-- C4 witness: concrete tie `0.125` GB with even hundredth `12`. -/
theorem C4_witness :
    (report_gpu_device_info_record 0 sampleTie 0).memoryTotal =
      (if (12 : ℤ) % 2 = 0 then ((12 : ℤ) : ℚ) else ((12 : ℤ) : ℚ) + 1) / 100 :=
  C4_tie_rounds_half_to_even 0 sampleTie 0 12
    (by norm_num [sampleTie, BYTES_TO_GB])

/-- C5: the four byte-derived fields of every built record equal
`round(bytes / 2^30, 2)`, and on the spec's concrete scenario sample with
edge id 7 the record carries memoryTotal 16, memoryAvailable 8,
diskSpaceTotal 100, diskSpaceAvailable 50, cpuUtilization 42.57,
networkTraffic 3000 and edgeId 7. -/
theorem C5_byte_fields_and_scenario :
    (∀ (edge_id : ℤ) (s : TelemetrySample) (ntp : ℚ),
      (report_gpu_device_info_record edge_id s ntp).memoryTotal =
        pyRound2 (s.total_mem / 2 ^ 30) ∧
      (report_gpu_device_info_record edge_id s ntp).memoryAvailable =
        pyRound2 (s.free_mem / 2 ^ 30) ∧
      (report_gpu_device_info_record edge_id s ntp).diskSpaceTotal =
        pyRound2 (s.total_disk_size / 2 ^ 30) ∧
      (report_gpu_device_info_record edge_id s ntp).diskSpaceAvailable =
        pyRound2 (s.free_disk_size / 2 ^ 30)) ∧
    (report_gpu_device_info_record 7 sampleC5 0).memoryTotal = 16 ∧
    (report_gpu_device_info_record 7 sampleC5 0).memoryAvailable = 8 ∧
    (report_gpu_device_info_record 7 sampleC5 0).diskSpaceTotal = 100 ∧
    (report_gpu_device_info_record 7 sampleC5 0).diskSpaceAvailable = 50 ∧
    (report_gpu_device_info_record 7 sampleC5 0).cpuUtilization = 42.57 ∧
    (report_gpu_device_info_record 7 sampleC5 0).networkTraffic = 3000 ∧
    (report_gpu_device_info_record 7 sampleC5 0).edgeId = 7 := by
  have hconv : ∀ x : ℚ, x * BYTES_TO_GB = x / 2 ^ 30 := fun x => by
    rw [BYTES_TO_GB]; ring
  refine ⟨fun edge_id s ntp => ⟨?_, ?_, ?_, ?_⟩, ?_, ?_, ?_, ?_, ?_, ?_, ?_⟩ <;>
    first
      | (show pyRound2 _ = pyRound2 _; rw [hconv])
      | norm_num [report_gpu_device_info_record, pyRound2, roundHalfToEven, ratFloor_eq,
          BYTES_TO_GB, sampleC5]

/-- C10: calling the static `report_gpu_device_info` with `mqtt_mgr`
omitted (`None`) still consumes the provider sample and builds the full
record, but the guard at source line 179 publishes nothing; the call
raises no error on account of the absent publisher. -/
theorem C10_none_publisher_builds_but_does_not_publish (edge_id : ℤ)
    (s : TelemetrySample) (ntp : ℚ) :
    report_gpu_device_info edge_id none (Except.ok s) ntp =
      Except.ok (report_gpu_device_info_record edge_id s ntp, []) :=
  rfl

end MLOpsDevicePerfs

